import Mathlib

/-!
Shallow embedding of `compas_viewer/scene/buffermanager.py` (class `BufferManager`).

Scalar values (python floats) are modelled as rationals: the buffer manager only
copies, compares (`< 1.0`) and tests equality of these values, it never does
float arithmetic, so the embedding is exact on every concrete input.
Python `dict`s keyed by object identity are modelled as association lists keyed
by a numeric object id, with insertion consing to the front (lookup finds the
newest binding, matching dict overwrite semantics).  A python exception raised
inside a method is modelled by the method returning `none`.  GPU side effects
(OpenGL calls, shader calls) are modelled as an emitted event trace.
-/

namespace BufferMgr

/-- Word of caution on numerics: an RGBA color record, four rationals. -/
structure Col where
  r : ℚ
  g : ℚ
  b : ℚ
  a : ℚ
deriving DecidableEq

/-- Point in space: a 3-coordinate position record. -/
structure Vec3 where
  x : ℚ
  y : ℚ
  z : ℚ
deriving DecidableEq

/-- Data triple exposed by an object for one geometry bucket:
`(positions, colors, elements)` as in `getattr(obj, buffer_type)`.
Element indices are vertex indices, so naturals. -/
structure BufferData where
  positions : List Vec3
  colors : List Col
  elements : List ℕ
deriving DecidableEq

/-- Geometry bucket kinds: `_points_data`, `_lines_data`, `_frontfaces_data`,
`_backfaces_data`. -/
inductive BufferType
  | points
  | lines
  | frontfaces
  | backfaces
deriving DecidableEq

/-- Face buckets are the two bucket kinds whose elements get partitioned into
opaque and transparent index lists. -/
def isFace : BufferType → Bool
  | .frontfaces => true
  | .backfaces => true
  | _ => false

/-- Scene object as seen by the buffer manager: its id (python object
identity), the four optional bucket data triples, and the attributes read by
`add_object` / `update_object_settings`.  `none` for an optional field models
a missing attribute (failed `hasattr`) or falsy data. -/
structure Obj where
  id : ℕ
  pointsData : Option BufferData
  linesData : Option BufferData
  frontfacesData : Option BufferData
  backfacesData : Option BufferData
  transformation : Option (List ℚ)
  instanceColor : Option (ℚ × ℚ × ℚ)
  parent : Option ℕ
  show' : Bool
  show_points : Bool
  show_lines : Bool
  show_faces : Bool
  is_selected : Bool
  opacity : ℚ
  pointsize : ℚ
  linewidth : Option ℚ
deriving DecidableEq

/-- Typed accessor for the four duck-typed `_xxx_data` attributes. -/
def dataOf (obj : Obj) : BufferType → Option BufferData
  | .points => obj.pointsData
  | .lines => obj.linesData
  | .frontfaces => obj.frontfacesData
  | .backfaces => obj.backfacesData

/-- GPU / GL side effects emitted by the buffer manager, as an event trace. -/
inductive GLEvent
  | bindShader (lineShader : Bool)
  | releaseShader (lineShader : Bool)
  | setUniform
  | enableAttrib
  | bindAttrib
  | glToggle
  | depthMask (enabled : Bool)
  | drawTriangles (bt : BufferType) (transparent : Bool) (n : ℕ)
  | drawPoints (n : ℕ)
  | drawLines (n : ℕ)
  | writeTransformTexture (index : ℕ)
  | writeSettingsTexture (index : ℕ)
  | writeVertexBuffer (bt : BufferType) (byteOffset : ℕ)
  | createVertexBufferEv
  | createIndexBufferEv
  | createTextureEv
  | deleteBuffersEv
  | deleteTexturesEv
deriving DecidableEq

/-- CPU-side state of the `BufferManager` instance.  The four per-bucket numpy
arrays are flattened rational lists exactly as in the source; `bufferIds bt`
records whether the bucket's GPU buffer dict is non-empty, and the two texture
flags record whether the texture attributes exist. -/
structure BMState where
  positions : BufferType → List ℚ
  colors : BufferType → List ℚ
  elements : BufferType → List ℕ
  elementsTransparent : BufferType → List ℕ
  object_indices : BufferType → List ℚ
  objects : List (ℕ × ℕ)
  transforms : List (List ℚ)
  settings : List (List (List ℚ))
  object_settings_cache : List (ℕ × List (List ℚ))
  bufferIds : BufferType → Bool
  hasTransformTexture : Bool
  hasSettingsTexture : Bool

/-- State produced by `__init__`: every array empty, every dict empty. -/
def initState : BMState where
  positions := fun _ => []
  colors := fun _ => []
  elements := fun _ => []
  elementsTransparent := fun _ => []
  object_indices := fun _ => []
  objects := []
  transforms := []
  settings := []
  object_settings_cache := []
  bufferIds := fun _ => false
  hasTransformTexture := false
  hasSettingsTexture := false

/-- Point update of a bucket-indexed field. -/
def updBT {α : Type} (f : BufferType → α) (bt : BufferType) (v : α) : BufferType → α :=
  fun b => if b = bt then v else f b

/-- Length repair of the colors list against the positions list
(`_add_buffer_data`, lines 109-117): extra colors are truncated, missing
colors are filled by repeating the last color; `colors[-1]` on an empty list
raises `IndexError`, modelled as `none`. -/
def repair_colors (positions : List Vec3) (colors : List Col) : Option (List Col) :=
  if colors.length > positions.length then
    some (colors.take positions.length)
  else if colors.length < positions.length then
    match colors.getLast? with
    | some c => some (colors ++ List.replicate (positions.length - colors.length) c)
    | none => none
  else
    some colors

/-- Flattening of one position into the bucket's float array. -/
def vecFloats (v : Vec3) : List ℚ := [v.x, v.y, v.z]

/-- Flattening of one color record into the bucket's float array. -/
def colFloats (c : Col) : List ℚ := [c.r, c.g, c.b, c.a]

/-- Transparency test of `_add_buffer_data` line 132-134: the element's vertex
color has alpha < 1 or the owning object's opacity is < 1. -/
def isTransparentElem (colors : List Col) (opacity : ℚ) (e : ℕ) : Bool :=
  match colors.get? e with
  | some c => decide (c.a < 1) || decide (opacity < 1)
  | none => false

/-- Opaque sub-list of a face bucket's incoming elements (in-range elements
classified opaque), in source order as built by the loop at lines 127-137. -/
def solidOf (colors : List Col) (opacity : ℚ) (elems : List ℕ) : List ℕ :=
  elems.filter fun e => decide (e < colors.length) && !(isTransparentElem colors opacity e)

/-- Transparent sub-list of a face bucket's incoming elements. -/
def transparentOf (colors : List Col) (opacity : ℚ) (elems : List ℕ) : List ℕ :=
  elems.filter fun e => decide (e < colors.length) && isTransparentElem colors opacity e

/-- Vertex count of a bucket: the flattened position array length divided by 3
(`len(self.positions[buffer_type]) // 3`). -/
def vertex_count (s : BMState) (bt : BufferType) : ℕ :=
  (s.positions bt).length / 3

/-- Embedding of `_add_buffer_data(obj, buffer_type)`: repairs the colors
(possibly raising), flattens the arrays, offsets the incoming element indices
by the bucket's pre-insertion vertex count and appends everything; for face
buckets the in-range elements are partitioned into opaque and transparent
lists, out-of-range elements (`e >= len(colors)`) are silently dropped. -/
def add_buffer_data (obj : Obj) (bt : BufferType) (d : BufferData) (s : BMState) :
    Option BMState :=
  match repair_colors d.positions d.colors with
  | none => none
  | some cs =>
    let start_idx := (s.positions bt).length / 3
    let object_index := s.transforms.length
    let base : BMState :=
      { s with
        positions := updBT s.positions bt (s.positions bt ++ d.positions.flatMap vecFloats)
        colors := updBT s.colors bt (s.colors bt ++ cs.flatMap colFloats)
        object_indices := updBT s.object_indices bt
          (s.object_indices bt ++ List.replicate d.positions.length (object_index : ℚ)) }
    if isFace bt then
      some { base with
        elements := updBT s.elements bt
          (s.elements bt ++ (solidOf cs obj.opacity d.elements).map (fun e => e + start_idx))
        elementsTransparent := updBT s.elementsTransparent bt
          (s.elementsTransparent bt ++
            (transparentOf cs obj.opacity d.elements).map (fun e => e + start_idx)) }
    else
      some { base with
        elements := updBT s.elements bt
          (s.elements bt ++ d.elements.map (fun e => e + start_idx)) }

/-- One iteration of the bucket loop in `add_object`: process the bucket when
the object provides data for it. -/
def add_step (obj : Obj) (bt : BufferType) (s : BMState) : Option BMState :=
  match dataOf obj bt with
  | some d => add_buffer_data obj bt d s
  | none => some s

/-- Flattened 4x4 identity matrix used when `obj.transformation is None`. -/
def identity_matrix : List ℚ :=
  [1, 0, 0, 0, 0, 1, 0, 0, 0, 0, 1, 0, 0, 0, 0, 1]

/-- Flattened transform of an object (lines 82-85 / 323-326). -/
def matrixOf (obj : Obj) : List ℚ :=
  match obj.transformation with
  | some m => m
  | none => identity_matrix

/-- Conversion of a python boolean inside a settings row to its float value. -/
def bq (b : Bool) : ℚ := if b then 1 else 0

/-- The 12-float (3 rows by 4 columns) settings record computed identically in
`add_object` (lines 88-102) and `update_object_settings` (lines 389-403);
`objectsMap` is the slot dict used for the parent lookup. -/
def computeSettings (objectsMap : List (ℕ × ℕ)) (obj : Obj) : List (List ℚ) :=
  let instance_color : List ℚ :=
    match obj.instanceColor with
    | some c => [c.1, c.2.1, c.2.2]
    | none => [0, 0, 0]
  let parent_index : ℚ :=
    match obj.parent with
    | some p =>
      match objectsMap.lookup p with
      | some i => (i : ℚ)
      | none => -1
    | none => -1
  [[bq obj.show', bq obj.show_points, bq obj.show_lines, bq obj.show_faces],
   instance_color ++ [bq obj.is_selected],
   [parent_index, obj.opacity, obj.pointsize, obj.linewidth.getD 1]]

/-- Final part of `add_object` after the bucket loop: append the transform and
the settings record (the slot dict already contains the object). -/
def add_finish (obj : Obj) (s : BMState) : BMState :=
  { s with
    transforms := s.transforms ++ [matrixOf obj]
    settings := s.settings ++ [computeSettings s.objects obj] }

/-- Embedding of `add_object(obj)`: record the slot (current transform count),
run the bucket loop in source order, then append transform and settings.  A
raise inside the bucket loop (`none`) aborts the whole call. -/
def add_object (obj : Obj) (s : BMState) : Option BMState :=
  let s0 : BMState := { s with objects := (obj.id, s.transforms.length) :: s.objects }
  (add_step obj .points s0).bind fun s1 =>
  (add_step obj .lines s1).bind fun s2 =>
  (add_step obj .frontfaces s2).bind fun s3 =>
  (add_step obj .backfaces s3).map fun s4 => add_finish obj s4

/-- Folding `add_object` over a list of objects, propagating a raise. -/
def add_objects (objs : List Obj) (s : BMState) : Option BMState :=
  match objs with
  | [] => some s
  | o :: rest => (add_object o s).bind (add_objects rest)

/-- Embedding of `create_buffers()`: makes the transform and settings textures
(dummy data for empty scenes), then per bucket with a non-empty position array
makes the vertex buffers and index buffers; an already-populated bucket dict
stays populated since the dict is never cleared here. -/
def create_buffers (s : BMState) : BMState × List GLEvent :=
  let bucketEvents : BufferType → List GLEvent := fun bt =>
    if (s.positions bt).length ≠ 0 then
      if isFace bt then
        [.createVertexBufferEv, .createVertexBufferEv, .createVertexBufferEv,
         .createIndexBufferEv, .createIndexBufferEv]
      else
        [.createVertexBufferEv, .createVertexBufferEv, .createVertexBufferEv,
         .createIndexBufferEv]
    else []
  ({ s with
      bufferIds := fun bt => s.bufferIds bt || (s.positions bt).length ≠ 0
      hasTransformTexture := true
      hasSettingsTexture := true },
   [.createTextureEv, .createTextureEv] ++
     bucketEvents .points ++ bucketEvents .lines ++
     bucketEvents .frontfaces ++ bucketEvents .backfaces)

/-- Embedding of `clear()`: releases every tracked GPU buffer and texture,
then resets every CPU array and dict to its `__init__` value, so the resulting
state is exactly `initState`. -/
def clear (s : BMState) : BMState × List GLEvent :=
  let bucketEvents : BufferType → List GLEvent := fun bt =>
    if s.bufferIds bt then [.deleteBuffersEv] else []
  (initState,
   bucketEvents .points ++ bucketEvents .lines ++
     bucketEvents .frontfaces ++ bucketEvents .backfaces ++
     (if s.hasTransformTexture then [.deleteTexturesEv] else []) ++
     (if s.hasSettingsTexture then [.deleteTexturesEv] else []))

/-- Embedding of `update_object_transform(obj)`: silently a no-op when the
object is not in the slot dict; otherwise rewrites the CPU transform entry and
issues one partial texture write at the slot's offset. -/
def update_object_transform (obj : Obj) (s : BMState) : BMState × List GLEvent :=
  match s.objects.lookup obj.id with
  | none => (s, [])
  | some index =>
    ({ s with transforms := s.transforms.set index (matrixOf obj) },
     [.writeTransformTexture index])

/-- Embedding of `update_object_settings(obj)`: no-op for unknown objects;
recomputes the 12-float record, returns without any write when the cached
record is identical, otherwise updates cache, CPU table and GPU texture. -/
def update_object_settings (obj : Obj) (s : BMState) : BMState × List GLEvent :=
  match s.objects.lookup obj.id with
  | none => (s, [])
  | some index =>
    let r := computeSettings s.objects obj
    if s.object_settings_cache.lookup obj.id = some r then
      (s, [])
    else
      ({ s with
          object_settings_cache := (obj.id, r) :: s.object_settings_cache
          settings := s.settings.set index r },
       [.writeSettingsTexture index])

/-- First index whose entry of the bucket's object-index array equals the
slot, defaulting to 0 (the linear scan at lines 365-369). -/
def find_start (indices : List ℚ) (index : ℕ) : ℕ :=
  (indices.findIdx? (fun q => q == (index : ℚ))).getD 0

/-- One bucket iteration of `update_object_data`: skipped when the object has
no data for the bucket or the bucket has no GPU buffers; otherwise the same
color-length repair runs (it can raise), and the positions and colors regions
of the bucket's vertex buffers are rewritten in place at the object's offset.
CPU arrays are not touched. -/
def update_data_bucket (obj : Obj) (index : ℕ) (s : BMState) (bt : BufferType) :
    Option (List GLEvent) :=
  match dataOf obj bt with
  | none => some []
  | some d =>
    if s.bufferIds bt = false then some []
    else
      match repair_colors d.positions d.colors with
      | none => none
      | some _ =>
        let start_idx := find_start (s.object_indices bt) index
        some [.writeVertexBuffer bt (start_idx * 3 * 4),
              .writeVertexBuffer bt (start_idx * 4 * 4)]

/-- Embedding of `update_object_data(obj)`: no-op for unknown objects;
otherwise refreshes each provided bucket's GPU vertex data in place. -/
def update_object_data (obj : Obj) (s : BMState) : Option (BMState × List GLEvent) :=
  match s.objects.lookup obj.id with
  | none => some (s, [])
  | some index =>
    (update_data_bucket obj index s .points).bind fun e1 =>
    (update_data_bucket obj index s .lines).bind fun e2 =>
    (update_data_bucket obj index s .frontfaces).bind fun e3 =>
    (update_data_bucket obj index s .backfaces).map fun e4 =>
    (s, e1 ++ e2 ++ e3 ++ e4)

/-- Render-mode string for the wireframe scenario. -/
def wireframeMode : String := "wireframe"

/-- Render-mode string for the shaded default. -/
def shadedMode : String := "shaded"

/-- Events of the opaque/instance face pass `_draw_faces`: bracketed by the
polygon-offset toggles, skipped entirely in wireframe mode (and in ghosted
mode outside instance rendering); in instance mode the transparent index list
is drawn here as well. -/
def draw_faces_events (s : BMState) (is_instance _is_lighted is_ghosted is_wireframe : Bool) :
    List GLEvent :=
  let faceLoop : BufferType → List GLEvent := fun bt =>
    if s.bufferIds bt then
      [.bindAttrib, .bindAttrib, .bindAttrib,
       .drawTriangles bt false (s.elements bt).length] ++
      (if is_instance then
        [.drawTriangles bt true (s.elementsTransparent bt).length]
      else [])
    else []
  [.glToggle] ++
    (if !is_wireframe && (!is_ghosted || is_instance) then
      [.setUniform, .setUniform] ++ faceLoop .frontfaces ++ faceLoop .backfaces
    else []) ++
    [.glToggle]

/-- Events of the points pass `_draw_points`. -/
def draw_points_events (s : BMState) : List GLEvent :=
  [.setUniform] ++
    (if s.bufferIds .points then
      [.bindAttrib, .bindAttrib, .bindAttrib, .drawPoints (s.elements .points).length]
    else [])

/-- Events of the lines pass `_draw_lines`, which binds and releases its own
shader. -/
def draw_lines_events (s : BMState) : List GLEvent :=
  [.glToggle, .bindShader true, .setUniform, .setUniform] ++
    (if s.bufferIds .lines then
      [.enableAttrib, .enableAttrib, .enableAttrib,
       .bindAttrib, .bindAttrib, .bindAttrib, .drawLines (s.elements .lines).length]
    else []) ++
    [.releaseShader true, .glToggle]

/-- Events of the transparent face pass `_draw_transparent_faces`: depth-write
disabled for the duration; in ghosted mode the opaque index lists are drawn
through this pass as well. -/
def draw_transparent_events (s : BMState) (_is_lighted is_ghosted : Bool) : List GLEvent :=
  let faceLoop : BufferType → List GLEvent := fun bt =>
    if s.bufferIds bt then
      [.bindAttrib, .bindAttrib, .bindAttrib,
       .drawTriangles bt true (s.elementsTransparent bt).length] ++
      (if is_ghosted then [.drawTriangles bt false (s.elements bt).length] else [])
    else []
  [.bindShader false, .setUniform, .setUniform, .depthMask false] ++
    faceLoop .frontfaces ++ faceLoop .backfaces ++ [.depthMask true]

/-- Embedding of `draw(shader, line_shader, rendermode, is_instance)` as the
emitted event trace: immediate return when no bucket has GPU resources, then
the opaque face pass, points pass, lines pass, and (outside instance and
wireframe modes) the transparent face pass. -/
def draw (s : BMState) (rendermode : String) (is_instance : Bool) : List GLEvent :=
  let is_wireframe := rendermode == "wireframe"
  let is_lighted := rendermode == "lighted"
  let is_ghosted := rendermode == "ghosted"
  let has_geometry :=
    s.bufferIds .points || s.bufferIds .frontfaces || s.bufferIds .backfaces ||
      s.bufferIds .lines
  if !has_geometry then []
  else
    [.bindShader false, .setUniform, .enableAttrib, .enableAttrib, .enableAttrib] ++
      draw_faces_events s is_instance is_lighted is_ghosted is_wireframe ++
      draw_points_events s ++
      [.releaseShader false] ++
      draw_lines_events s ++
      (if !is_instance && !is_wireframe then
        draw_transparent_events s is_lighted is_ghosted
      else [])

/-- Test for a triangle draw call in the event trace. -/
def isTriDraw : GLEvent → Bool
  | .drawTriangles _ _ _ => true
  | _ => false

/-- A bucket data triple on which the color-length repair cannot raise:
either at least one color is supplied or there are no positions at all. -/
def colorsOk (d : BufferData) : Bool :=
  !d.colors.isEmpty || d.positions.isEmpty

/-- Decidable well-formedness of an object's bucket data for ingestion: every
provided bucket satisfies `colorsOk`. -/
def bucketsOk (obj : Obj) : Bool :=
  (obj.pointsData.all colorsOk) && (obj.linesData.all colorsOk) &&
    (obj.frontfacesData.all colorsOk) && (obj.backfacesData.all colorsOk)

/-- Parent-slot entry of a 3-row settings record (row 3, column 0). -/
def parent_index_of (r : List (List ℚ)) : ℚ :=
  (r.getD 2 []).getD 0 (-1)

/-- Example vertex used by the concrete scenarios. -/
def vW : Vec3 := ⟨0, 0, 0⟩

/-- Fully opaque example color. -/
def cOpaque : Col := ⟨0, 0, 0, 1⟩

/-- Half-transparent example color (alpha = 1/2). -/
def cHalf : Col := ⟨0, 0, 0, 1/2⟩

/-- Object providing one point position but an empty colors list: the repair
branch reads `colors[-1]` on an empty list. -/
def oNoColors : Obj :=
  ⟨7, some ⟨[vW], [], []⟩, none, none, none, none, none, none,
   true, true, true, true, false, 1, 1, none⟩

/-- Fully opaque triangle object (id 0). -/
def oTriOpaque : Obj :=
  ⟨0, none, none, some ⟨[vW, vW, vW], [cOpaque, cOpaque, cOpaque], [0, 1, 2]⟩,
   none, none, none, none, true, true, true, true, false, 1, 1, none⟩

/-- Triangle object whose vertex colors have alpha 1/2 (id 1). -/
def oTriHalf : Obj :=
  ⟨1, none, none, some ⟨[vW, vW, vW], [cHalf, cHalf, cHalf], [0, 1, 2]⟩,
   none, none, none, none, true, true, true, true, false, 1, 1, none⟩

/-- Face object whose element list contains the out-of-range index 1 while it
has a single vertex (id 2). -/
def oOutOfRange : Obj :=
  ⟨2, none, none, some ⟨[vW], [cOpaque], [0, 1]⟩, none, none, none, none,
   true, true, true, true, false, 1, 1, none⟩

/-- Child object (id 1) whose parent attribute refers to object id 0. -/
def oChild : Obj :=
  ⟨1, some ⟨[vW], [cOpaque], [0]⟩, none, none, none, none, none, some 0,
   true, true, true, true, false, 1, 1, none⟩

/-- State after ingesting the opaque triangle object into a fresh manager. -/
def sOne : BMState := (add_object oTriOpaque initState).getD initState

/-- State after further ingesting the child object. -/
def sTwo : BMState := (add_object oChild sOne).getD initState

/-- State after ingesting the half-transparent triangle on top of `sOne`. -/
def sHalf : BMState := (add_object oTriHalf sOne).getD initState

/-- State after one settings update of the opaque triangle: its cache entry
now matches its settings record. -/
def sUpd : BMState := (update_object_settings oTriOpaque sOne).1

theorem updBT_self {α : Type} (f : BufferType → α) (bt : BufferType) (v : α) :
    updBT f bt v bt = v := by
  simp [updBT]

theorem updBT_ne {α : Type} (f : BufferType → α) (bt bt' : BufferType) (v : α)
    (h : bt' ≠ bt) : updBT f bt v bt' = f bt' := by
  simp [updBT, h]

theorem repair_colors_length (positions : List Vec3) (colors cs : List Col)
    (h : repair_colors positions colors = some cs) : cs.length = positions.length := by
  unfold repair_colors at h
  split at h
  · simp only [Option.some.injEq] at h
    subst h
    simp
    omega
  · split at h
    · rename_i hlt
      split at h
      · rename_i c hc
        simp only [Option.some.injEq] at h
        subst h
        simp
        omega
      · exact absurd h (by simp)
    · simp only [Option.some.injEq] at h
      subst h
      omega

theorem repair_colors_isSome (positions : List Vec3) (colors : List Col)
    (h : colors ≠ [] ∨ positions = []) :
    ∃ cs, repair_colors positions colors = some cs := by
  unfold repair_colors
  split
  · exact ⟨_, rfl⟩
  · split
    · rename_i hle hlt
      have hc : colors ≠ [] := by
        rcases h with h | h
        · exact h
        · subst h
          simp at hlt
      rcases Option.isSome_iff_exists.mp (List.getLast?_isSome.mpr hc) with ⟨c, hc'⟩
      rw [hc']
      exact ⟨_, rfl⟩
    · exact ⟨_, rfl⟩

theorem length_flatMap_vecFloats (l : List Vec3) :
    (l.flatMap vecFloats).length = 3 * l.length := by
  induction l with
  | nil => simp
  | cons v t ih => simp [vecFloats, ih]; omega

theorem length_flatMap_colFloats (l : List Col) :
    (l.flatMap colFloats).length = 4 * l.length := by
  induction l with
  | nil => simp
  | cons c t ih => simp [colFloats, ih]; omega

theorem add_buffer_data_eq (obj : Obj) (bt : BufferType) (d : BufferData) (s s' : BMState)
    (h : add_buffer_data obj bt d s = some s') :
    ∃ cs, repair_colors d.positions d.colors = some cs ∧
      s'.positions = updBT s.positions bt (s.positions bt ++ d.positions.flatMap vecFloats) ∧
      s'.colors = updBT s.colors bt (s.colors bt ++ cs.flatMap colFloats) ∧
      s'.object_indices = updBT s.object_indices bt
        (s.object_indices bt ++ List.replicate d.positions.length ((s.transforms.length : ℚ))) ∧
      s'.elements = updBT s.elements bt
        (s.elements bt ++ (if isFace bt then
          (solidOf cs obj.opacity d.elements).map (fun e => e + vertex_count s bt)
        else
          d.elements.map (fun e => e + vertex_count s bt))) ∧
      s'.elementsTransparent = (if isFace bt then
          updBT s.elementsTransparent bt (s.elementsTransparent bt ++
            (transparentOf cs obj.opacity d.elements).map (fun e => e + vertex_count s bt))
        else s.elementsTransparent) ∧
      s'.objects = s.objects ∧ s'.transforms = s.transforms ∧ s'.settings = s.settings ∧
      s'.object_settings_cache = s.object_settings_cache ∧ s'.bufferIds = s.bufferIds ∧
      s'.hasTransformTexture = s.hasTransformTexture ∧
      s'.hasSettingsTexture = s.hasSettingsTexture := by
  unfold add_buffer_data at h
  cases hrep : repair_colors d.positions d.colors with
  | none => rw [hrep] at h; cases h
  | some cs =>
    rw [hrep] at h
    refine ⟨cs, rfl, ?_⟩
    by_cases hf : isFace bt = true
    · simp only [hf, if_true] at h ⊢
      simp only [Option.some.injEq] at h
      subst h
      simp [vertex_count]
    · simp only [Bool.not_eq_true] at hf
      simp only [hf, Bool.false_eq_true, if_false] at h ⊢
      simp only [Option.some.injEq] at h
      subst h
      simp [vertex_count]

theorem add_step_scalars (obj : Obj) (bt0 : BufferType) (s s' : BMState)
    (h : add_step obj bt0 s = some s') :
    s'.objects = s.objects ∧ s'.transforms = s.transforms ∧ s'.settings = s.settings ∧
    s'.object_settings_cache = s.object_settings_cache ∧ s'.bufferIds = s.bufferIds := by
  unfold add_step at h
  cases hd : dataOf obj bt0 with
  | none =>
    rw [hd] at h
    simp only [Option.some.injEq] at h
    subst h
    exact ⟨rfl, rfl, rfl, rfl, rfl⟩
  | some d =>
    rw [hd] at h
    obtain ⟨cs, _, _, _, _, _, _, ho, ht, hs, hc, hb, _, _⟩ := add_buffer_data_eq obj bt0 d s s' h
    exact ⟨ho, ht, hs, hc, hb⟩

theorem add_step_other (obj : Obj) (bt0 bt : BufferType) (s s' : BMState)
    (h : add_step obj bt0 s = some s') (hne : bt ≠ bt0) :
    s'.positions bt = s.positions bt ∧ s'.colors bt = s.colors bt ∧
    s'.object_indices bt = s.object_indices bt ∧
    s'.elements bt = s.elements bt ∧
    s'.elementsTransparent bt = s.elementsTransparent bt := by
  unfold add_step at h
  cases hd : dataOf obj bt0 with
  | none =>
    rw [hd] at h
    simp only [Option.some.injEq] at h
    subst h
    exact ⟨rfl, rfl, rfl, rfl, rfl⟩
  | some d =>
    rw [hd] at h
    obtain ⟨cs, _, hp, hcol, hoi, hel, helt, _⟩ := add_buffer_data_eq obj bt0 d s s' h
    refine ⟨?_, ?_, ?_, ?_, ?_⟩
    · rw [hp, updBT_ne _ _ _ _ hne]
    · rw [hcol, updBT_ne _ _ _ _ hne]
    · rw [hoi, updBT_ne _ _ _ _ hne]
    · rw [hel, updBT_ne _ _ _ _ hne]
    · by_cases hf : isFace bt0 = true
      · rw [helt]
        simp only [hf, if_true]
        rw [updBT_ne _ _ _ _ hne]
      · simp only [Bool.not_eq_true] at hf
        rw [helt]
        simp [hf]

theorem add_step_self (obj : Obj) (bt : BufferType) (s s' : BMState)
    (h : add_step obj bt s = some s') :
    (dataOf obj bt = none → s' = s) ∧
    (∀ d, dataOf obj bt = some d →
      ∃ cs, repair_colors d.positions d.colors = some cs ∧
        s'.positions bt = s.positions bt ++ d.positions.flatMap vecFloats ∧
        s'.colors bt = s.colors bt ++ cs.flatMap colFloats ∧
        s'.object_indices bt =
          s.object_indices bt ++ List.replicate d.positions.length ((s.transforms.length : ℚ)) ∧
        s'.elements bt = s.elements bt ++ (if isFace bt then
            (solidOf cs obj.opacity d.elements).map (fun e => e + vertex_count s bt)
          else
            d.elements.map (fun e => e + vertex_count s bt)) ∧
        s'.elementsTransparent bt = s.elementsTransparent bt ++ (if isFace bt then
            (transparentOf cs obj.opacity d.elements).map (fun e => e + vertex_count s bt)
          else [])) := by
  unfold add_step at h
  constructor
  · intro hd
    rw [hd] at h
    simp only [Option.some.injEq] at h
    exact h.symm
  · intro d hd
    rw [hd] at h
    obtain ⟨cs, hrep, hp, hcol, hoi, hel, helt, _⟩ := add_buffer_data_eq obj bt d s s' h
    refine ⟨cs, hrep, ?_, ?_, ?_, ?_, ?_⟩
    · rw [hp, updBT_self]
    · rw [hcol, updBT_self]
    · rw [hoi, updBT_self]
    · rw [hel, updBT_self]
    · by_cases hf : isFace bt = true
      · rw [helt]
        simp only [hf, if_true]
        rw [updBT_self]
      · simp only [Bool.not_eq_true] at hf
        rw [helt]
        simp [hf]

theorem add_object_destruct (obj : Obj) (s s' : BMState)
    (h : add_object obj s = some s') :
    ∃ s1 s2 s3 s4,
      add_step obj .points
        { s with objects := (obj.id, s.transforms.length) :: s.objects } = some s1 ∧
      add_step obj .lines s1 = some s2 ∧
      add_step obj .frontfaces s2 = some s3 ∧
      add_step obj .backfaces s3 = some s4 ∧
      s' = add_finish obj s4 := by
  simp only [add_object] at h
  cases h1 : add_step obj .points
      { s with objects := (obj.id, s.transforms.length) :: s.objects } with
  | none => rw [h1] at h; cases h
  | some s1 =>
    rw [h1] at h
    simp only [Option.some_bind] at h
    cases h2 : add_step obj .lines s1 with
    | none => rw [h2] at h; cases h
    | some s2 =>
      rw [h2] at h
      simp only [Option.some_bind] at h
      cases h3 : add_step obj .frontfaces s2 with
      | none => rw [h3] at h; cases h
      | some s3 =>
        rw [h3] at h
        simp only [Option.some_bind] at h
        cases h4 : add_step obj .backfaces s3 with
        | none => rw [h4] at h; cases h
        | some s4 =>
          rw [h4] at h
          simp only [Option.map_some', Option.some.injEq] at h
          exact ⟨s1, s2, s3, s4, rfl, h2, h3, h4, h.symm⟩

theorem add_object_eq (obj : Obj) (s s' : BMState) (h : add_object obj s = some s') :
    s'.objects = (obj.id, s.transforms.length) :: s.objects ∧
    s'.transforms = s.transforms ++ [matrixOf obj] ∧
    s'.settings = s.settings ++
      [computeSettings ((obj.id, s.transforms.length) :: s.objects) obj] ∧
    s'.object_settings_cache = s.object_settings_cache ∧
    s'.bufferIds = s.bufferIds ∧
    ∀ bt, (dataOf obj bt = none →
        s'.positions bt = s.positions bt ∧ s'.colors bt = s.colors bt ∧
        s'.object_indices bt = s.object_indices bt ∧
        s'.elements bt = s.elements bt ∧
        s'.elementsTransparent bt = s.elementsTransparent bt) ∧
      (∀ d, dataOf obj bt = some d →
        ∃ cs, repair_colors d.positions d.colors = some cs ∧
          s'.positions bt = s.positions bt ++ d.positions.flatMap vecFloats ∧
          s'.colors bt = s.colors bt ++ cs.flatMap colFloats ∧
          s'.object_indices bt = s.object_indices bt ++
            List.replicate d.positions.length ((s.transforms.length : ℚ)) ∧
          s'.elements bt = s.elements bt ++ (if isFace bt then
              (solidOf cs obj.opacity d.elements).map (fun e => e + vertex_count s bt)
            else d.elements.map (fun e => e + vertex_count s bt)) ∧
          s'.elementsTransparent bt = s.elementsTransparent bt ++ (if isFace bt then
              (transparentOf cs obj.opacity d.elements).map (fun e => e + vertex_count s bt)
            else [])) := by
  obtain ⟨s1, s2, s3, s4, h1, h2, h3, h4, hs'⟩ := add_object_destruct obj s s' h
  obtain ⟨o1, t1, g1, c1, b1⟩ := add_step_scalars obj .points _ s1 h1
  obtain ⟨o2, t2, g2, c2, b2⟩ := add_step_scalars obj .lines _ s2 h2
  obtain ⟨o3, t3, g3, c3, b3⟩ := add_step_scalars obj .frontfaces _ s3 h3
  obtain ⟨o4, t4, g4, c4, b4⟩ := add_step_scalars obj .backfaces _ s4 h4
  subst hs'
  have hobj : s4.objects = (obj.id, s.transforms.length) :: s.objects := by
    rw [o4, o3, o2, o1]
  have htr : s4.transforms = s.transforms := by
    rw [t4, t3, t2, t1]
  refine ⟨?_, ?_, ?_, ?_, ?_, ?_⟩
  · simpa [add_finish] using hobj
  · simp [add_finish, htr]
  · simp only [add_finish]
    rw [g4, g3, g2, g1, hobj]
  · simp only [add_finish]
    rw [c4, c3, c2, c1]
  · simp only [add_finish]
    rw [b4, b3, b2, b1]
  · intro bt
    cases bt with
    | points =>
      constructor
      · intro hd
        have e1 := (add_step_self obj .points _ s1 h1).1 hd
        obtain ⟨p2, q2, r2, u2, v2⟩ := add_step_other obj .lines .points s1 s2 h2 (by decide)
        obtain ⟨p3, q3, r3, u3, v3⟩ := add_step_other obj .frontfaces .points s2 s3 h3 (by decide)
        obtain ⟨p4, q4, r4, u4, v4⟩ := add_step_other obj .backfaces .points s3 s4 h4 (by decide)
        subst e1
        exact ⟨by simp only [add_finish]; rw [p4, p3, p2],
               by simp only [add_finish]; rw [q4, q3, q2],
               by simp only [add_finish]; rw [r4, r3, r2],
               by simp only [add_finish]; rw [u4, u3, u2],
               by simp only [add_finish]; rw [v4, v3, v2]⟩
      · intro d hd
        obtain ⟨cs, hrep, hp, hq, hr, hu, hv⟩ := (add_step_self obj .points _ s1 h1).2 d hd
        obtain ⟨p2, q2, r2, u2, v2⟩ := add_step_other obj .lines .points s1 s2 h2 (by decide)
        obtain ⟨p3, q3, r3, u3, v3⟩ := add_step_other obj .frontfaces .points s2 s3 h3 (by decide)
        obtain ⟨p4, q4, r4, u4, v4⟩ := add_step_other obj .backfaces .points s3 s4 h4 (by decide)
        refine ⟨cs, hrep, ?_, ?_, ?_, ?_, ?_⟩
        · simp only [add_finish]; rw [p4, p3, p2]; simpa [vertex_count] using hp
        · simp only [add_finish]; rw [q4, q3, q2]; simpa [vertex_count] using hq
        · simp only [add_finish]; rw [r4, r3, r2]; simpa [vertex_count] using hr
        · simp only [add_finish]; rw [u4, u3, u2]; simpa [vertex_count] using hu
        · simp only [add_finish]; rw [v4, v3, v2]; simpa [vertex_count] using hv
    | lines =>
      constructor
      · intro hd
        have e2 := (add_step_self obj .lines s1 s2 h2).1 hd
        obtain ⟨p1, q1, r1, u1, v1⟩ := add_step_other obj .points .lines _ s1 h1 (by decide)
        obtain ⟨p3, q3, r3, u3, v3⟩ := add_step_other obj .frontfaces .lines s2 s3 h3 (by decide)
        obtain ⟨p4, q4, r4, u4, v4⟩ := add_step_other obj .backfaces .lines s3 s4 h4 (by decide)
        subst e2
        exact ⟨by simp only [add_finish]; rw [p4, p3, p1],
               by simp only [add_finish]; rw [q4, q3, q1],
               by simp only [add_finish]; rw [r4, r3, r1],
               by simp only [add_finish]; rw [u4, u3, u1],
               by simp only [add_finish]; rw [v4, v3, v1]⟩
      · intro d hd
        obtain ⟨cs, hrep, hp, hq, hr, hu, hv⟩ := (add_step_self obj .lines s1 s2 h2).2 d hd
        obtain ⟨p1, q1, r1, u1, v1⟩ := add_step_other obj .points .lines _ s1 h1 (by decide)
        obtain ⟨p3, q3, r3, u3, v3⟩ := add_step_other obj .frontfaces .lines s2 s3 h3 (by decide)
        obtain ⟨p4, q4, r4, u4, v4⟩ := add_step_other obj .backfaces .lines s3 s4 h4 (by decide)
        rw [p1] at hp
        rw [q1] at hq
        rw [r1, t1] at hr
        rw [u1] at hu
        rw [v1] at hv
        have hvc : vertex_count s1 .lines =
            vertex_count { s with objects := (obj.id, s.transforms.length) :: s.objects } .lines := by
          simp [vertex_count, p1]
        refine ⟨cs, hrep, ?_, ?_, ?_, ?_, ?_⟩
        · simp only [add_finish]; rw [p4, p3]; simpa [vertex_count] using hp
        · simp only [add_finish]; rw [q4, q3]; simpa [vertex_count] using hq
        · simp only [add_finish]; rw [r4, r3]; simpa [vertex_count] using hr
        · simp only [add_finish]; rw [u4, u3]; rw [hvc] at hu; simpa [vertex_count] using hu
        · simp only [add_finish]; rw [v4, v3]; rw [hvc] at hv; simpa [vertex_count] using hv
    | frontfaces =>
      constructor
      · intro hd
        have e3 := (add_step_self obj .frontfaces s2 s3 h3).1 hd
        obtain ⟨p1, q1, r1, u1, v1⟩ := add_step_other obj .points .frontfaces _ s1 h1 (by decide)
        obtain ⟨p2, q2, r2, u2, v2⟩ := add_step_other obj .lines .frontfaces s1 s2 h2 (by decide)
        obtain ⟨p4, q4, r4, u4, v4⟩ := add_step_other obj .backfaces .frontfaces s3 s4 h4 (by decide)
        subst e3
        exact ⟨by simp only [add_finish]; rw [p4, p2, p1],
               by simp only [add_finish]; rw [q4, q2, q1],
               by simp only [add_finish]; rw [r4, r2, r1],
               by simp only [add_finish]; rw [u4, u2, u1],
               by simp only [add_finish]; rw [v4, v2, v1]⟩
      · intro d hd
        obtain ⟨cs, hrep, hp, hq, hr, hu, hv⟩ := (add_step_self obj .frontfaces s2 s3 h3).2 d hd
        obtain ⟨p1, q1, r1, u1, v1⟩ := add_step_other obj .points .frontfaces _ s1 h1 (by decide)
        obtain ⟨p2, q2, r2, u2, v2⟩ := add_step_other obj .lines .frontfaces s1 s2 h2 (by decide)
        obtain ⟨p4, q4, r4, u4, v4⟩ := add_step_other obj .backfaces .frontfaces s3 s4 h4 (by decide)
        rw [p2, p1] at hp
        rw [q2, q1] at hq
        rw [r2, r1, t2, t1] at hr
        rw [u2, u1] at hu
        rw [v2, v1] at hv
        have hvc : vertex_count s2 .frontfaces =
            vertex_count { s with objects := (obj.id, s.transforms.length) :: s.objects }
              .frontfaces := by
          simp [vertex_count, p2, p1]
        refine ⟨cs, hrep, ?_, ?_, ?_, ?_, ?_⟩
        · simp only [add_finish]; rw [p4]; simpa [vertex_count] using hp
        · simp only [add_finish]; rw [q4]; simpa [vertex_count] using hq
        · simp only [add_finish]; rw [r4]; simpa [vertex_count] using hr
        · simp only [add_finish]; rw [u4]; rw [hvc] at hu; simpa [vertex_count] using hu
        · simp only [add_finish]; rw [v4]; rw [hvc] at hv; simpa [vertex_count] using hv
    | backfaces =>
      constructor
      · intro hd
        have e4 := (add_step_self obj .backfaces s3 s4 h4).1 hd
        obtain ⟨p1, q1, r1, u1, v1⟩ := add_step_other obj .points .backfaces _ s1 h1 (by decide)
        obtain ⟨p2, q2, r2, u2, v2⟩ := add_step_other obj .lines .backfaces s1 s2 h2 (by decide)
        obtain ⟨p3, q3, r3, u3, v3⟩ := add_step_other obj .frontfaces .backfaces s2 s3 h3 (by decide)
        subst e4
        exact ⟨by simp only [add_finish]; rw [p3, p2, p1],
               by simp only [add_finish]; rw [q3, q2, q1],
               by simp only [add_finish]; rw [r3, r2, r1],
               by simp only [add_finish]; rw [u3, u2, u1],
               by simp only [add_finish]; rw [v3, v2, v1]⟩
      · intro d hd
        obtain ⟨cs, hrep, hp, hq, hr, hu, hv⟩ := (add_step_self obj .backfaces s3 s4 h4).2 d hd
        obtain ⟨p1, q1, r1, u1, v1⟩ := add_step_other obj .points .backfaces _ s1 h1 (by decide)
        obtain ⟨p2, q2, r2, u2, v2⟩ := add_step_other obj .lines .backfaces s1 s2 h2 (by decide)
        obtain ⟨p3, q3, r3, u3, v3⟩ := add_step_other obj .frontfaces .backfaces s2 s3 h3 (by decide)
        rw [p3, p2, p1] at hp
        rw [q3, q2, q1] at hq
        rw [r3, r2, r1, t3, t2, t1] at hr
        rw [u3, u2, u1] at hu
        rw [v3, v2, v1] at hv
        have hvc : vertex_count s3 .backfaces =
            vertex_count { s with objects := (obj.id, s.transforms.length) :: s.objects }
              .backfaces := by
          simp [vertex_count, p3, p2, p1]
        refine ⟨cs, hrep, ?_, ?_, ?_, ?_, ?_⟩
        · simp only [add_finish]; simpa [vertex_count] using hp
        · simp only [add_finish]; simpa [vertex_count] using hq
        · simp only [add_finish]; simpa [vertex_count] using hr
        · simp only [add_finish]; rw [hvc] at hu; simpa [vertex_count] using hu
        · simp only [add_finish]; rw [hvc] at hv; simpa [vertex_count] using hv

theorem colorsOk_spec (d : BufferData) (h : colorsOk d = true) :
    d.colors ≠ [] ∨ d.positions = [] := by
  simp only [colorsOk, Bool.or_eq_true, Bool.not_eq_true', List.isEmpty_eq_false,
    List.isEmpty_iff] at h
  exact h

theorem bucketsOk_spec (obj : Obj) (h : bucketsOk obj = true) :
    ∀ bt d, dataOf obj bt = some d → (d.colors ≠ [] ∨ d.positions = []) := by
  simp only [bucketsOk, Bool.and_eq_true] at h
  obtain ⟨⟨⟨hp, hl⟩, hf⟩, hb⟩ := h
  intro bt d hd
  cases bt with
  | points =>
    simp only [dataOf] at hd
    rw [hd] at hp
    exact colorsOk_spec d (by simpa [Option.all] using hp)
  | lines =>
    simp only [dataOf] at hd
    rw [hd] at hl
    exact colorsOk_spec d (by simpa [Option.all] using hl)
  | frontfaces =>
    simp only [dataOf] at hd
    rw [hd] at hf
    exact colorsOk_spec d (by simpa [Option.all] using hf)
  | backfaces =>
    simp only [dataOf] at hd
    rw [hd] at hb
    exact colorsOk_spec d (by simpa [Option.all] using hb)

theorem add_buffer_data_isSome (obj : Obj) (bt : BufferType) (d : BufferData) (s : BMState)
    (h : d.colors ≠ [] ∨ d.positions = []) :
    ∃ s', add_buffer_data obj bt d s = some s' := by
  obtain ⟨cs, hcs⟩ := repair_colors_isSome d.positions d.colors h
  unfold add_buffer_data
  rw [hcs]
  by_cases hf : isFace bt = true
  · simp only [hf, if_true]
    exact ⟨_, rfl⟩
  · simp only [Bool.not_eq_true] at hf
    simp only [hf, Bool.false_eq_true, if_false]
    exact ⟨_, rfl⟩

theorem add_step_isSome (obj : Obj) (bt : BufferType) (s : BMState)
    (h : ∀ d, dataOf obj bt = some d → (d.colors ≠ [] ∨ d.positions = [])) :
    ∃ s', add_step obj bt s = some s' := by
  unfold add_step
  cases hd : dataOf obj bt with
  | none => exact ⟨s, rfl⟩
  | some d => exact add_buffer_data_isSome obj bt d s (h d hd)

theorem add_object_isSome (obj : Obj) (s : BMState)
    (h : ∀ bt d, dataOf obj bt = some d → (d.colors ≠ [] ∨ d.positions = [])) :
    ∃ s', add_object obj s = some s' := by
  obtain ⟨s1, h1⟩ := add_step_isSome obj .points
    { s with objects := (obj.id, s.transforms.length) :: s.objects } (h .points)
  obtain ⟨s2, h2⟩ := add_step_isSome obj .lines s1 (h .lines)
  obtain ⟨s3, h3⟩ := add_step_isSome obj .frontfaces s2 (h .frontfaces)
  obtain ⟨s4, h4⟩ := add_step_isSome obj .backfaces s3 (h .backfaces)
  refine ⟨add_finish obj s4, ?_⟩
  simp only [add_object]
  rw [h1]
  simp only [Option.some_bind]
  rw [h2]
  simp only [Option.some_bind]
  rw [h3]
  simp only [Option.some_bind]
  rw [h4]
  rfl

/-- C1 counterexample: the claim asserts that the color-length repair in
`add_object` never fails for any colors/positions length combination, but an
object supplying one position and an empty colors list makes `_add_buffer_data`
evaluate `colors[-1]` on an empty list, raising `IndexError` (modelled as
`none`). -/
theorem claim1_counterexample : add_object oNoColors initState = none := by
  rfl

/-- C1 (amended): provided every bucket an object supplies has at least one
color or no positions, `add_object` never raises, and for every supplied
bucket the ingested color records (4 floats each) match the ingested positions
(3 floats each) one record per position — extra colors truncated, missing
colors filled by repeating the last color; in particular positions
`[p0, p1, p2]` with colors `[c0]` yield the repaired colors `[c0, c0, c0]`. -/
theorem claim1_colors_repaired (s : BMState) (obj : Obj) (h : bucketsOk obj = true) :
    (∃ s', add_object obj s = some s' ∧
      ∀ bt d, dataOf obj bt = some d →
        (s'.colors bt).length = (s.colors bt).length + 4 * d.positions.length ∧
        (s'.positions bt).length = (s.positions bt).length + 3 * d.positions.length ∧
        (s'.object_indices bt).length = (s.object_indices bt).length + d.positions.length) ∧
    (∀ (v0 v1 v2 : Vec3) (c0 : Col), repair_colors [v0, v1, v2] [c0] = some [c0, c0, c0]) := by
  constructor
  · obtain ⟨s', hs'⟩ := add_object_isSome obj s (bucketsOk_spec obj h)
    refine ⟨s', hs', ?_⟩
    intro bt d hd
    obtain ⟨_, _, _, _, _, hbt⟩ := add_object_eq obj s s' hs'
    obtain ⟨cs, hrep, hp, hc, hoi, _, _⟩ := (hbt bt).2 d hd
    have hlen := repair_colors_length d.positions d.colors cs hrep
    refine ⟨?_, ?_, ?_⟩
    · rw [hc, List.length_append, length_flatMap_colFloats, hlen]
    · rw [hp, List.length_append, length_flatMap_vecFloats]
    · rw [hoi, List.length_append, List.length_replicate]
  · intro v0 v1 v2 c0
    rfl

theorem solid_transparent_disjoint (cs : List Col) (op : ℚ) (l : List ℕ) (e : ℕ)
    (h1 : e ∈ solidOf cs op l) : e ∉ transparentOf cs op l := by
  intro h2
  simp only [solidOf, List.mem_filter, Bool.and_eq_true, Bool.not_eq_true',
    decide_eq_true_eq] at h1
  simp only [transparentOf, List.mem_filter, Bool.and_eq_true, decide_eq_true_eq] at h2
  rw [h1.2.2] at h2
  cases h2.2.2

theorem solid_transparent_perm (cs : List Col) (op : ℚ) (l : List ℕ) :
    List.Perm (solidOf cs op l ++ transparentOf cs op l)
      (l.filter (fun e => decide (e < cs.length))) := by
  induction l with
  | nil => simp [solidOf, transparentOf]
  | cons a t ih =>
    by_cases hin : a < cs.length
    · by_cases ht : isTransparentElem cs op a = true
      · have h1 : solidOf cs op (a :: t) = solidOf cs op t := by
          simp [solidOf, List.filter_cons, hin, ht]
        have h2 : transparentOf cs op (a :: t) = a :: transparentOf cs op t := by
          simp [transparentOf, List.filter_cons, hin, ht]
        rw [h1, h2, List.filter_cons_of_pos (by simp [hin])]
        exact (List.perm_middle).trans (ih.cons a)
      · have h1 : solidOf cs op (a :: t) = a :: solidOf cs op t := by
          simp [solidOf, List.filter_cons, hin, ht]
        have h2 : transparentOf cs op (a :: t) = transparentOf cs op t := by
          simp [transparentOf, List.filter_cons, hin, ht]
        rw [h1, h2, List.filter_cons_of_pos (by simp [hin])]
        exact (ih.cons a)
    · have h1 : solidOf cs op (a :: t) = solidOf cs op t := by
        simp [solidOf, List.filter_cons, hin]
      have h2 : transparentOf cs op (a :: t) = transparentOf cs op t := by
        simp [transparentOf, List.filter_cons, hin]
      rw [h1, h2, List.filter_cons_of_neg (by simp [hin])]
      exact ih

theorem transparent_mem_iff (cs : List Col) (op : ℚ) (l : List ℕ) (e : ℕ)
    (hel : e ∈ l) (hlt : e < cs.length) :
    e ∈ transparentOf cs op l ↔ isTransparentElem cs op e = true := by
  simp [transparentOf, List.mem_filter, hel, hlt]

/-- C2 counterexample: the claim asserts the union of the stored opaque and
transparent lists equals all ingested element indices, but an element index
referencing a color slot beyond the resolved color list (`e >= len(colors)`)
is silently dropped from both lists: object id 2 ingests elements `[0, 1]`
into an empty front-face bucket (offset 0), yet the bucket stores only `[0]`
opaque and `[]` transparent. -/
theorem claim2_counterexample :
    dataOf oOutOfRange .frontfaces = some ⟨[vW], [cOpaque], [0, 1]⟩ ∧
    vertex_count initState .frontfaces = 0 ∧
    ((add_object oOutOfRange initState).getD initState).elements .frontfaces = [0] ∧
    ((add_object oOutOfRange initState).getD initState).elementsTransparent .frontfaces
      = [] := by
  exact ⟨rfl, rfl, rfl, rfl⟩

/-- C2 (amended): for every face bucket, the elements appended by an
`add_object` call are the bucket's pre-insertion opaque and transparent lists
extended by a partition of the ingested IN-RANGE element indices (indices
`e >= len(colors)` are silently dropped from both lists), offset by the
pre-insertion vertex count; the two appended lists are disjoint, their
multiset union is exactly the in-range ingested indices, and an in-range
element lands in the transparent list exactly when its vertex color alpha < 1
or the owning object's opacity < 1. -/
theorem claim2_partition (s : BMState) (obj : Obj) (bt : BufferType) (d : BufferData)
    (s' : BMState) (hface : isFace bt = true) (hd : dataOf obj bt = some d)
    (h : add_object obj s = some s') :
    ∃ cs, repair_colors d.positions d.colors = some cs ∧
      s'.elements bt = s.elements bt ++
        (solidOf cs obj.opacity d.elements).map (fun e => e + vertex_count s bt) ∧
      s'.elementsTransparent bt = s.elementsTransparent bt ++
        (transparentOf cs obj.opacity d.elements).map (fun e => e + vertex_count s bt) ∧
      (∀ e, e ∈ solidOf cs obj.opacity d.elements →
        e ∉ transparentOf cs obj.opacity d.elements) ∧
      List.Perm (solidOf cs obj.opacity d.elements ++ transparentOf cs obj.opacity d.elements)
        (d.elements.filter (fun e => decide (e < cs.length))) ∧
      (∀ e, e ∈ d.elements → e < cs.length →
        (e ∈ transparentOf cs obj.opacity d.elements ↔
          isTransparentElem cs obj.opacity e = true)) := by
  obtain ⟨_, _, _, _, _, hbt⟩ := add_object_eq obj s s' h
  obtain ⟨cs, hrep, _, _, _, hel, helt⟩ := (hbt bt).2 d hd
  rw [hface] at hel helt
  simp only [if_true] at hel helt
  exact ⟨cs, hrep, hel, helt,
    fun e he => solid_transparent_disjoint cs obj.opacity d.elements e he,
    solid_transparent_perm cs obj.opacity d.elements,
    fun e he hlt => transparent_mem_iff cs obj.opacity d.elements e he hlt⟩

/-- C2 witness: the amended theorem applied to the half-transparent triangle
object ingested on top of the opaque triangle. -/
theorem claim2_witness :
    isFace .frontfaces = true ∧
    dataOf oTriHalf .frontfaces = some ⟨[vW, vW, vW], [cHalf, cHalf, cHalf], [0, 1, 2]⟩ ∧
    add_object oTriHalf sOne = some sHalf ∧
    (∃ cs, repair_colors [vW, vW, vW] [cHalf, cHalf, cHalf] = some cs ∧
      sHalf.elements .frontfaces = sOne.elements .frontfaces ++
        (solidOf cs oTriHalf.opacity [0, 1, 2]).map
          (fun e => e + vertex_count sOne .frontfaces) ∧
      sHalf.elementsTransparent .frontfaces = sOne.elementsTransparent .frontfaces ++
        (transparentOf cs oTriHalf.opacity [0, 1, 2]).map
          (fun e => e + vertex_count sOne .frontfaces) ∧
      (∀ e, e ∈ solidOf cs oTriHalf.opacity [0, 1, 2] →
        e ∉ transparentOf cs oTriHalf.opacity [0, 1, 2]) ∧
      List.Perm (solidOf cs oTriHalf.opacity [0, 1, 2] ++
          transparentOf cs oTriHalf.opacity [0, 1, 2])
        (List.filter (fun e => decide (e < cs.length)) [0, 1, 2]) ∧
      (∀ e, e ∈ ([0, 1, 2] : List ℕ) → e < cs.length →
        (e ∈ transparentOf cs oTriHalf.opacity [0, 1, 2] ↔
          isTransparentElem cs oTriHalf.opacity e = true))) :=
  ⟨rfl, rfl, rfl,
    claim2_partition sOne oTriHalf .frontfaces ⟨[vW, vW, vW], [cHalf, cHalf, cHalf], [0, 1, 2]⟩
      sHalf rfl rfl rfl⟩

/-- C1 witness: the amended theorem applied to the opaque triangle object on
a fresh manager. -/
theorem claim1_witness :
    bucketsOk oTriOpaque = true ∧
    ((∃ s', add_object oTriOpaque initState = some s' ∧
      ∀ bt d, dataOf oTriOpaque bt = some d →
        (s'.colors bt).length = (initState.colors bt).length + 4 * d.positions.length ∧
        (s'.positions bt).length = (initState.positions bt).length + 3 * d.positions.length ∧
        (s'.object_indices bt).length =
          (initState.object_indices bt).length + d.positions.length) ∧
    (∀ (v0 v1 v2 : Vec3) (c0 : Col), repair_colors [v0, v1, v2] [c0] = some [c0, c0, c0])) :=
  ⟨by decide, claim1_colors_repaired initState oTriOpaque (by decide)⟩

/-- C3: every element index appended to a bucket (opaque or transparent list)
by an `add_object` call is at least the bucket's pre-insertion vertex count,
so appended indices never collide with previously ingested vertices. -/
theorem claim3_offset (s : BMState) (obj : Obj) (s' : BMState)
    (h : add_object obj s = some s') (bt : BufferType) :
    (∃ es, s'.elements bt = s.elements bt ++ es ∧
      ∀ e, e ∈ es → vertex_count s bt ≤ e) ∧
    (∃ es, s'.elementsTransparent bt = s.elementsTransparent bt ++ es ∧
      ∀ e, e ∈ es → vertex_count s bt ≤ e) := by
  obtain ⟨_, _, _, _, _, hbt⟩ := add_object_eq obj s s' h
  cases hd : dataOf obj bt with
  | none =>
    obtain ⟨_, _, _, hel, helt⟩ := (hbt bt).1 hd
    exact ⟨⟨[], by simp [hel], by simp⟩, ⟨[], by simp [helt], by simp⟩⟩
  | some d =>
    obtain ⟨cs, _, _, _, _, hel, helt⟩ := (hbt bt).2 d hd
    constructor
    · refine ⟨_, hel, ?_⟩
      intro e he
      by_cases hf : isFace bt = true
      · rw [hf] at he
        simp only [if_true, List.mem_map] at he
        obtain ⟨x, _, hx⟩ := he
        omega
      · simp only [Bool.not_eq_true] at hf
        rw [hf] at he
        simp only [Bool.false_eq_true, if_false, List.mem_map] at he
        obtain ⟨x, _, hx⟩ := he
        omega
    · refine ⟨_, helt, ?_⟩
      intro e he
      by_cases hf : isFace bt = true
      · rw [hf] at he
        simp only [if_true, List.mem_map] at he
        obtain ⟨x, _, hx⟩ := he
        omega
      · simp only [Bool.not_eq_true] at hf
        rw [hf] at he
        simp only [Bool.false_eq_true, if_false, List.not_mem_nil] at he

/-- C3 witness: adding the half-transparent triangle after the opaque one
offsets its appended indices by the bucket's prior vertex count. -/
theorem claim3_witness :
    add_object oTriHalf sOne = some sHalf ∧
    ((∃ es, sHalf.elements .frontfaces = sOne.elements .frontfaces ++ es ∧
      ∀ e, e ∈ es → vertex_count sOne .frontfaces ≤ e) ∧
    (∃ es, sHalf.elementsTransparent .frontfaces =
        sOne.elementsTransparent .frontfaces ++ es ∧
      ∀ e, e ∈ es → vertex_count sOne .frontfaces ≤ e)) :=
  ⟨rfl, claim3_offset sOne oTriHalf sHalf rfl .frontfaces⟩

/-- C4: drawing with rendermode "wireframe" issues no triangle draw call on
any face bucket, for any buffer state and any value of `is_instance`: both
the opaque/instance face pass and the transparent face pass are skipped, so
only the points and lines passes can issue draw calls. -/
theorem claim4_wireframe (s : BMState) (inst : Bool) :
    (draw s wireframeMode inst).filter isTriDraw = [] := by
  have h1 : (wireframeMode == "wireframe") = true := rfl
  have h2 : (wireframeMode == "lighted") = false := rfl
  have h3 : (wireframeMode == "ghosted") = false := rfl
  cases hp : s.bufferIds .points <;> cases hl : s.bufferIds .lines <;>
    cases hf : s.bufferIds .frontfaces <;> cases hb : s.bufferIds .backfaces <;>
      simp [draw, draw_faces_events, draw_points_events, draw_lines_events,
        draw_transparent_events, isTriDraw, hp, hl, hf, hb, h1, h2, h3]

theorem update_settings_write (s : BMState) (obj : Obj) (index : ℕ)
    (hin : s.objects.lookup obj.id = some index)
    (hmiss : s.object_settings_cache.lookup obj.id ≠
      some (computeSettings s.objects obj)) :
    update_object_settings obj s =
      ({ s with
          object_settings_cache := (obj.id, computeSettings s.objects obj) ::
            s.object_settings_cache
          settings := s.settings.set index (computeSettings s.objects obj) },
       [.writeSettingsTexture index]) := by
  unfold update_object_settings
  rw [hin]
  split
  · rename_i hc
    cases hc
  · rename_i idx hidx
    obtain rfl : index = idx := by injection hidx
    exact if_neg hmiss

/-- C5 counterexample: the claim asserts that two successive
`update_object_settings` calls on a tracked object with no state change in
between perform exactly one GPU settings write, but when the cached record
already matches (here: after a previous update of the same unchanged object)
both calls take the cache-hit fast path and perform zero writes. -/
theorem claim5_counterexample :
    sUpd.objects.lookup oTriOpaque.id = some 0 ∧
    (update_object_settings oTriOpaque sUpd).2 = [] ∧
    (update_object_settings oTriOpaque
      (update_object_settings oTriOpaque sUpd).1).2 = [] := by
  exact ⟨rfl, rfl, rfl⟩

/-- C5 (amended): for a tracked object whose cached record does not already
match the recomputed one (in particular at the first update after ingestion),
two successive `update_object_settings` calls with no change to the object in
between perform exactly one GPU settings write: the first call writes once,
and the second call leaves the whole state untouched and emits nothing
(cache-hit fast path). -/
theorem claim5_idempotent (s : BMState) (obj : Obj) (index : ℕ)
    (hin : s.objects.lookup obj.id = some index)
    (hmiss : s.object_settings_cache.lookup obj.id ≠
      some (computeSettings s.objects obj)) :
    (update_object_settings obj s).2 = [.writeSettingsTexture index] ∧
    update_object_settings obj (update_object_settings obj s).1 =
      ((update_object_settings obj s).1, []) := by
  have hfirst := update_settings_write s obj index hin hmiss
  refine ⟨by rw [hfirst], ?_⟩
  rw [hfirst]
  unfold update_object_settings
  simp only
  rw [hin]
  simp [List.lookup]

/-- C5 witness: the theorem applied to the opaque triangle object right after
ingestion (empty settings cache). -/
theorem claim5_witness :
    sOne.objects.lookup oTriOpaque.id = some 0 ∧
    sOne.object_settings_cache.lookup oTriOpaque.id ≠
      some (computeSettings sOne.objects oTriOpaque) ∧
    ((update_object_settings oTriOpaque sOne).2 = [.writeSettingsTexture 0] ∧
    update_object_settings oTriOpaque (update_object_settings oTriOpaque sOne).1 =
      ((update_object_settings oTriOpaque sOne).1, [])) :=
  ⟨rfl, by decide, claim5_idempotent sOne oTriOpaque 0 rfl (by decide)⟩

/-- C6: all three targeted update operations are silent no-ops for an object
absent from the slot map: they raise nothing, emit no GPU write, and leave
the whole buffer-manager state unchanged. -/
theorem claim6_unknown_noop (s : BMState) (obj : Obj)
    (h : s.objects.lookup obj.id = none) :
    update_object_transform obj s = (s, []) ∧
    update_object_settings obj s = (s, []) ∧
    update_object_data obj s = some (s, []) := by
  refine ⟨?_, ?_, ?_⟩
  · unfold update_object_transform
    rw [h]
  · unfold update_object_settings
    rw [h]
  · unfold update_object_data
    rw [h]

/-- C6 witness: the theorem applied to the opaque triangle object against a
fresh manager that has never seen it. -/
theorem claim6_witness :
    initState.objects.lookup oTriOpaque.id = none ∧
    (update_object_transform oTriOpaque initState = (initState, []) ∧
    update_object_settings oTriOpaque initState = (initState, []) ∧
    update_object_data oTriOpaque initState = some (initState, [])) :=
  ⟨rfl, claim6_unknown_noop initState oTriOpaque rfl⟩

/-- C7: when no bucket has any GPU buffer handles, `draw` returns immediately
with an empty event trace — no shader bind, no uniform, no attribute bind and
no draw call — for every rendermode and every `is_instance` value. -/
theorem claim7_draw_empty (s : BMState) (h : ∀ bt, s.bufferIds bt = false)
    (mode : String) (inst : Bool) :
    draw s mode inst = [] := by
  simp [draw, h]

/-- C7 witness: a fresh manager draws nothing in shaded mode. -/
theorem claim7_witness :
    (∀ bt, initState.bufferIds bt = false) ∧ draw initState shadedMode false = [] :=
  ⟨fun _ => rfl, claim7_draw_empty initState (fun _ => rfl) shadedMode false⟩

/-- C8: `clear` resets the whole CPU state to its `__init__` value (every
array empty, object map, transform table, settings table and settings cache
empty), and re-adding the same objects in the same order followed by
`create_buffers` reproduces the very same state, in particular the same
per-bucket vertex counts and the same transform- and settings-table
lengths. -/
theorem claim8_rebuild (objs : List Obj) (s : BMState)
    (h : add_objects objs initState = some s) :
    (clear s).1 = initState ∧
    add_objects objs (clear s).1 = some s ∧
    (∀ bt, vertex_count (create_buffers s).1 bt = vertex_count s bt) ∧
    ((create_buffers s).1).transforms.length = s.transforms.length ∧
    ((create_buffers s).1).settings.length = s.settings.length := by
  exact ⟨rfl, h, fun _ => rfl, rfl, rfl⟩

/-- C8 witness: the round trip for the singleton scene of the opaque
triangle. -/
theorem claim8_witness :
    add_objects [oTriOpaque] initState = some sOne ∧
    ((clear sOne).1 = initState ∧
    add_objects [oTriOpaque] (clear sOne).1 = some sOne ∧
    (∀ bt, vertex_count (create_buffers sOne).1 bt = vertex_count sOne bt) ∧
    ((create_buffers sOne).1).transforms.length = sOne.transforms.length ∧
    ((create_buffers sOne).1).settings.length = sOne.settings.length) :=
  ⟨rfl, claim8_rebuild [oTriOpaque] sOne rfl⟩

/-- C9: `add_object` assigns the new object the slot equal to the transform
table's length before insertion (the number of objects already inserted) and
grows the transform table by one, so slots are monotonically increasing; and
when the object's parent attribute refers to an already-tracked object, the
appended settings record stores that parent's slot as its parent index. -/
theorem claim9_slots (s : BMState) (obj : Obj) (s' : BMState)
    (h : add_object obj s = some s') :
    s'.objects.lookup obj.id = some s.transforms.length ∧
    s'.transforms.length = s.transforms.length + 1 ∧
    (∀ p index, obj.parent = some p → p ≠ obj.id → s.objects.lookup p = some index →
      ∃ r, s'.settings = s.settings ++ [r] ∧ parent_index_of r = (index : ℚ)) := by
  obtain ⟨ho, ht, hg, _, _, _⟩ := add_object_eq obj s s' h
  refine ⟨?_, ?_, ?_⟩
  · rw [ho]
    simp [List.lookup]
  · rw [ht]
    simp
  · intro p index hp hne hidx
    refine ⟨computeSettings ((obj.id, s.transforms.length) :: s.objects) obj, hg, ?_⟩
    have hlk : ((obj.id, s.transforms.length) :: s.objects).lookup p = some index := by
      have hb : (p == obj.id) = false := beq_eq_false_iff_ne.mpr hne
      simp [List.lookup, hb, hidx]
    simp [parent_index_of, computeSettings, hp, hlk, List.getD]

/-- C9 witness: the child object (parent = object id 0) added after the
opaque triangle gets slot 1 and a settings record whose parent index is 0. -/
theorem claim9_witness :
    add_object oChild sOne = some sTwo ∧
    sTwo.objects.lookup oChild.id = some sOne.transforms.length ∧
    sTwo.transforms.length = sOne.transforms.length + 1 ∧
    (∃ r, sTwo.settings = sOne.settings ++ [r] ∧ parent_index_of r = ((0 : ℕ) : ℚ)) := by
  have hc := claim9_slots sOne oChild sTwo rfl
  exact ⟨rfl, hc.1, hc.2.1, hc.2.2 0 0 rfl (by decide) rfl⟩

/-- C10: `add_object` never writes the settings cache, so for an object whose
cache entry is absent at ingestion time (any object never updated before),
the first `update_object_settings` call after ingestion always performs a GPU
settings write — even though the settings table already holds the identical
record stored by `add_object`; the cache-hit fast path needs a cache entry
that only a previous update can have created. -/
theorem claim10_fresh_write (s : BMState) (obj : Obj) (s' : BMState)
    (h : add_object obj s = some s')
    (hfresh : s.object_settings_cache.lookup obj.id = none) :
    s'.object_settings_cache = s.object_settings_cache ∧
    (update_object_settings obj s').2 = [.writeSettingsTexture s.transforms.length] := by
  obtain ⟨ho, _, _, hc, _, _⟩ := add_object_eq obj s s' h
  refine ⟨hc, ?_⟩
  have hin : s'.objects.lookup obj.id = some s.transforms.length := by
    rw [ho]
    simp [List.lookup]
  have hmiss : s'.object_settings_cache.lookup obj.id ≠
      some (computeSettings s'.objects obj) := by
    rw [hc, hfresh]
    exact fun hcon => Option.noConfusion hcon
  rw [update_settings_write s' obj s.transforms.length hin hmiss]

/-- C10 witness: the opaque triangle ingested into a fresh manager has no
cache entry, and its first settings update issues a GPU write for slot 0. -/
theorem claim10_witness :
    add_object oTriOpaque initState = some sOne ∧
    initState.object_settings_cache.lookup oTriOpaque.id = none ∧
    (sOne.object_settings_cache = initState.object_settings_cache ∧
    (update_object_settings oTriOpaque sOne).2 =
      [.writeSettingsTexture initState.transforms.length]) :=
  ⟨rfl, rfl, claim10_fresh_write initState oTriOpaque sOne rfl rfl⟩

end BufferMgr
